import Mathlib

/-!
Shallow embedding of the display reconciliation layer of vd_agent
(src/src/vdagent/kwin.c and src/src/vdagent/mutter.c).

The embedding models the pure contents of the two backends:
discovery (`vdagent_kwin_get_resolutions`, `vdagent_mutter_get_resolutions`),
mode selection (`kwin_find_mode`, `find_mode_for_resolution`),
operation building inside `vdagent_kwin_set_monitor_config` /
`vdagent_mutter_set_monitor_config`, and the kwin confirmation poll loop.
C `int32_t` values are modelled as `Int`, unsigned ids as `Nat` cast to `Int`
where the source stores them in `int` fields, `double` scale values as `Rat`,
and the injected `GHashTable` connector mapping as an association list
(hash tables have unique keys; `List.lookup` returns the first binding).
-/

/-- One display mode as tracked by the kwin backend (struct KWinMode,
kwin.c lines 40-47).  `refresh` is in mHz (int32 in the source). -/
structure KWinMode where
  width : Int
  height : Int
  refresh : Int
  preferred : Bool
  current : Bool
deriving DecidableEq, Repr

/-- One output device as tracked by the kwin backend (struct KWinOutput,
kwin.c lines 50-64).  `name` is the connector name (NULL until the backend
reports it), `done` records whether the "done" event has arrived. -/
structure KWinOutput where
  name : Option String
  x : Int
  y : Int
  width : Int
  height : Int
  transform : Int
  scale : Rat
  enabled : Bool
  modes : List KWinMode
  current_mode : Option KWinMode
  done : Bool
deriving DecidableEq, Repr

/-- A discovery result record (struct vdagentd_guest_xorg_resolution as
filled by both backends). -/
structure Resolution where
  width : Int
  height : Int
  x : Int
  y : Int
  display_id : Int
deriving DecidableEq, Repr

/-- The injected connector mapping (GHashTable, connector name to SPICE
display id, a guint).  Modelled as an association list; the source never
mutates it and a hash table's keys are unique. -/
abbrev ConnectorMapping := List (String × Nat)

/-- One mode of a mutter monitor as delivered by GetCurrentState
(mutter.c MODE_FORMAT / struct MutterModeInfo, lines 310-317).
`refresh_rate` is a double in the source, modelled as `Rat`. -/
structure MMode where
  id : String
  width : Int
  height : Int
  refresh_rate : Rat
  is_current : Bool
  is_preferred : Bool
deriving DecidableEq, Repr

/-- One physical monitor as delivered by GetCurrentState
(mutter.c MONITOR_FORMAT): its connector name and mode list. -/
structure MMonitor where
  connector : String
  modes : List MMode
deriving DecidableEq, Repr

/-- One logical monitor as delivered by GetCurrentState
(mutter.c LOGICAL_MONITOR_FORMAT): position, scale, transform, primary
flag and the connectors of the monitors it carries. -/
structure MLogical where
  x : Int
  y : Int
  scale : Rat
  transform : Nat
  primary : Bool
  connectors : List String
deriving DecidableEq, Repr

/- ===================================================================
   Discovery (vdagent_kwin_get_resolutions, kwin.c 501-577;
   vdagent_mutter_get_resolutions, mutter.c 161-289).
   Both loops are the same per-record pipeline: update the desktop
   bounds, then append the record to the mapped array when the
   connector is in the mapping and to the not-found array otherwise;
   at the end, if the mapped array is empty the not-found array is
   returned with display_id = position index.  The shared pipeline is
   factored here into `discovery_core`; each backend wrapper supplies
   its own record extraction, initial bounds and screen_count.
   =================================================================== -/

/-- Accumulator of the discovery loop: the mapped array (`res_array`),
the not-found array, and the running desktop bounds. -/
structure DiscAcc where
  found : List Resolution
  notFound : List Resolution
  w : Int
  h : Int
deriving DecidableEq, Repr

/-- `if v > acc then v else acc`: the desktop-bound update both backends
perform per record (kwin.c 539-544, mutter.c 242-247). -/
def acc_max (acc v : Int) : Int := if v > acc then v else acc

/-- One iteration of the discovery loop, processing one enabled, ready
record: bounds update, then mapping lookup deciding which array the
record joins (kwin.c 530-558, mutter.c 235-259).  The item's first
component is the connector name (none when the output has no name yet:
kwin.c checks `output->name &&` before the hash lookup). -/
def disc_step (mapping : ConnectorMapping) (st : DiscAcc)
    (item : Option String × Resolution) : DiscAcc :=
  let r := item.2
  let w := acc_max st.w (r.x + r.width)
  let h := acc_max st.h (r.y + r.height)
  match item.1.bind mapping.lookup with
  | some v => ⟨st.found ++ [{ r with display_id := (v : Int) }], st.notFound, w, h⟩
  | none => ⟨st.found, st.notFound ++ [r], w, h⟩

/-- Assign display ids by position, starting at `i`
(the fallback loop `res[i].display_id = i`, kwin.c 569-571,
mutter.c 279-281). -/
def assign_ids_from (i : Nat) : List Resolution → List Resolution
  | [] => []
  | r :: rest => { r with display_id := (i : Int) } :: assign_ids_from (i + 1) rest

/-- Assign display ids 0, 1, 2, ... by position index. -/
def assign_index_ids (rs : List Resolution) : List Resolution :=
  assign_ids_from 0 rs

/-- End of discovery: if the mapped array is empty, return the
not-found array with positional display ids instead
(kwin.c 562-574, mutter.c 271-285). -/
def disc_finish (st : DiscAcc) : List Resolution × Int × Int :=
  if st.found.length = 0 then (assign_index_ids st.notFound, st.w, st.h)
  else (st.found, st.w, st.h)

/-- The discovery pipeline shared (duplicated verbatim) by both
backends, over the enabled, ready records in discovery order. -/
def discovery_core (mapping : ConnectorMapping)
    (items : List (Option String × Resolution)) (w0 h0 : Int) :
    List Resolution × Int × Int :=
  disc_finish (items.foldl (disc_step mapping) ⟨[], [], w0, h0⟩)

/-- The enabled, ready outputs of a kwin snapshot: the loop in kwin.c
521-528 skips outputs with `!output->done || !output->enabled`. -/
def kwin_enabled_ready (outs : List KWinOutput) : List KWinOutput :=
  outs.filter (fun o => o.done && o.enabled)

/-- The per-output record the kwin discovery loop builds (kwin.c
530-536): current size and position, display_id initially 0. -/
def kwin_items (outs : List KWinOutput) : List (Option String × Resolution) :=
  (kwin_enabled_ready outs).map
    (fun o => (o.name, { width := o.width, height := o.height, x := o.x, y := o.y, display_id := 0 }))

/-- Result of `vdagent_kwin_get_resolutions`: the record list and the
out-parameters width, height, screen_count. -/
structure KWinDiscovery where
  res : List Resolution
  width : Int
  height : Int
  screen_count : Nat
deriving DecidableEq, Repr

/-- vdagent_kwin_get_resolutions (kwin.c 501-577): bounds start at 0,
screen_count counts the enabled, ready outputs, records flow through
the shared discovery pipeline. -/
def vdagent_kwin_get_resolutions (mapping : ConnectorMapping)
    (outs : List KWinOutput) : KWinDiscovery :=
  let out := discovery_core mapping (kwin_items outs) 0 0
  ⟨out.1, out.2.1, out.2.2, (kwin_enabled_ready outs).length⟩

/-- Position of a connector on the desktop: first logical monitor
listing the connector, else (0,0)
(vdagent_mutter_get_monitor_position, mutter.c 123-159; the loop
zeroes x/y when a logical monitor does not match, so a miss ends at
(0,0)). -/
def mutter_monitor_position (logicals : List MLogical) (connector : String) : Int × Int :=
  match logicals.find? (fun lm => lm.connectors.contains connector) with
  | some lm => (lm.x, lm.y)
  | none => (0, 0)

/-- The record the mutter discovery loop builds for one monitor: the
inner mode loop (mutter.c 219-262) skips non-current modes and breaks
after the first current one, so a monitor yields a record exactly when
it has a current mode (i.e. is enabled). -/
def mutter_monitor_record (logicals : List MLogical) (m : MMonitor) : Option Resolution :=
  match m.modes.find? (fun md => md.is_current) with
  | none => none
  | some md =>
    let p := mutter_monitor_position logicals m.connector
    some { width := md.width, height := md.height, x := p.1, y := p.2, display_id := 0 }

/-- The enabled records of a mutter state, in discovery order, keyed by
connector (always present on the wire). -/
def mutter_items (logicals : List MLogical) (monitors : List MMonitor) :
    List (Option String × Resolution) :=
  monitors.filterMap
    (fun m => (mutter_monitor_record logicals m).map (fun r => (some m.connector, r)))

/-- Result of `vdagent_mutter_get_resolutions`. -/
structure MutterDiscovery where
  res : List Resolution
  width : Int
  height : Int
  screen_count : Nat
deriving DecidableEq, Repr

/-- vdagent_mutter_get_resolutions (mutter.c 161-289).  The function
never initialises the out-parameters desktop_width/desktop_height, so
the bounds accumulate on top of the caller-supplied values `dw`, `dh`;
screen_count is `g_variant_iter_n_children(monitors)` (mutter.c 203),
the number of ALL monitors in the state. -/
def vdagent_mutter_get_resolutions (mapping : ConnectorMapping)
    (monitors : List MMonitor) (logicals : List MLogical) (dw dh : Int) :
    MutterDiscovery :=
  let out := discovery_core mapping (mutter_items logicals monitors) dw dh
  ⟨out.1, out.2.1, out.2.2, monitors.length⟩

/- ===================================================================
   Mode selection (kwin_find_mode, kwin.c 580-598;
   find_mode_for_resolution, mutter.c 512-543).
   Both scan the mode list keeping the first exact-size match and then
   replacing it whenever a later exact match has strictly higher
   refresh; the loop is factored generically over the refresh type
   (Int mHz for kwin, Rat for mutter's double). -/

/-- The scanning loop of both mode selectors: `best` starts NULL and
`bestR` starts 0; an exact match `m` replaces `best` when
`!best || rf m > bestR` (kwin.c 585-595, mutter.c 517-525). -/
def find_best_loop {A B : Type} [LinearOrder B] (p : A → Bool) (rf : A → B) :
    List A → Option A → B → Option A
  | [], best, _ => best
  | m :: rest, best, bestR =>
    if p m then
      if best.isNone || decide (bestR < rf m) then find_best_loop p rf rest (some m) (rf m)
      else find_best_loop p rf rest best bestR
    else find_best_loop p rf rest best bestR

/-- Exact (width, height) match on a kwin mode
(`mode->width == width && mode->height == height`, kwin.c 588). -/
def kwin_mode_matches (w h : Int) (m : KWinMode) : Bool :=
  m.width == w && m.height == h

/-- kwin_find_mode (kwin.c 580-598): best exact match by refresh,
`best = NULL`, `best_refresh = 0` initially. -/
def kwin_find_mode (modes : List KWinMode) (w h : Int) : Option KWinMode :=
  find_best_loop (kwin_mode_matches w h) KWinMode.refresh modes none 0

/-- Exact (width, height) match on a mutter mode (mutter.c 519). -/
def mutter_mode_matches (w h : Int) (m : MMode) : Bool :=
  m.width == w && m.height == h

/-- The selection core of find_mode_for_resolution (mutter.c 514-525):
best exact match by refresh rate. -/
def mutter_find_mode (modes : List MMode) (w h : Int) : Option MMode :=
  find_best_loop (mutter_mode_matches w h) MMode.refresh_rate modes none 0

/-- All exact-size matches of a kwin mode list, in discovery order
(the claim's "matches" set). -/
def kwin_exact_matches (modes : List KWinMode) (w h : Int) : List KWinMode :=
  modes.filter (kwin_mode_matches w h)

/-- All exact-size matches of a mutter mode list, in discovery order. -/
def mutter_exact_matches (modes : List MMode) (w h : Int) : List MMode :=
  modes.filter (mutter_mode_matches w h)

/- ===================================================================
   Apply: building the per-output operations.
   kwin: vdagent_kwin_set_monitor_config, kwin.c 600-719.
   mutter: vdagent_mutter_set_monitor_config, mutter.c 569-716.
   A VDAgentMonConfig entry carries no display id field: the SPICE
   display id of entry i is its index i in the monitors array.
   =================================================================== -/

/-- One entry of the requested layout (VDAgentMonConfig: width, height,
x, y; the depth field is unused by both backends). -/
structure MonConfigEntry where
  width : Int
  height : Int
  x : Int
  y : Int
deriving DecidableEq, Repr

/-- The reverse-lookup loop of kwin (kwin.c 634-648): first output
whose non-NULL connector name the mapping sends to display id `i`. -/
def kwin_resolve_loop (mapping : ConnectorMapping) (i : Nat) :
    List KWinOutput → Option KWinOutput
  | [] => none
  | o :: rest =>
    match o.name with
    | none => kwin_resolve_loop mapping i rest
    | some n =>
      match mapping.lookup n with
      | some v => if v = i then some o else kwin_resolve_loop mapping i rest
      | none => kwin_resolve_loop mapping i rest

/-- Target resolution for SPICE display `i` in kwin (kwin.c 631-653):
reverse mapping lookup, then fallback to the output at index `i`. -/
def kwin_resolve_output (mapping : ConnectorMapping) (outs : List KWinOutput)
    (i : Nat) : Option KWinOutput :=
  match kwin_resolve_loop mapping i outs with
  | some o => some o
  | none => if i < outs.length then outs[i]? else none

/-- The requests vdagent_kwin_set_monitor_config issues for one output
(kwin.c 660-689): enable, an optional mode request, position, and the
carried-over scale and transform.  When neither an exact mode nor a
current mode exists, no mode request is made but the other requests
still are. -/
structure KWinOp where
  out : KWinOutput
  enable : Bool
  mode : Option KWinMode
  x : Int
  y : Int
  scale : Rat
  transform : Int
deriving DecidableEq, Repr

/-- The operation built for layout entry `i` in kwin (kwin.c 628-690):
none when no output resolves (the entry is skipped with `continue`);
otherwise enable=1, mode = exact match, else current mode, else no
mode request; position from the entry; scale and transform from the
output's last observed state. -/
def kwin_op_of_entry (mapping : ConnectorMapping) (outs : List KWinOutput)
    (i : Nat) (mc : MonConfigEntry) : Option KWinOp :=
  match kwin_resolve_output mapping outs i with
  | none => none
  | some o =>
    some { out := o, enable := true,
           mode := (match kwin_find_mode o.modes mc.width mc.height with
                    | some m => some m
                    | none => o.current_mode),
           x := mc.x, y := mc.y, scale := o.scale, transform := o.transform }

/-- The kwin apply loop over the layout entries, `i` being the running
SPICE display index (kwin.c 628: `for i in 0..num_of_monitors`). -/
def kwin_build_ops_from (mapping : ConnectorMapping) (outs : List KWinOutput)
    (i : Nat) : List MonConfigEntry → List KWinOp
  | [] => []
  | mc :: rest =>
    match kwin_op_of_entry mapping outs i mc with
    | some op => op :: kwin_build_ops_from mapping outs (i + 1) rest
    | none => kwin_build_ops_from mapping outs (i + 1) rest

/-- All operations vdagent_kwin_set_monitor_config submits in one
configuration for a requested layout. -/
def kwin_build_ops (mapping : ConnectorMapping) (outs : List KWinOutput)
    (mons : List MonConfigEntry) : List KWinOp :=
  kwin_build_ops_from mapping outs 0 mons

/-- Position, scale, transform and primary flag of a connector from the
logical-monitor list, with the loop's defaults (0, 0, 1.0, 0, FALSE)
when no logical monitor lists it (find_logical_monitor_info,
mutter.c 378-432). -/
def find_logical_monitor_info (logicals : List MLogical) (connector : String) :
    Int × Int × Rat × Nat × Bool :=
  match logicals.find? (fun lm => lm.connectors.contains connector) with
  | some lm => (lm.x, lm.y, lm.scale, lm.transform, lm.primary)
  | none => (0, 0, 1, 0, false)

/-- Parsed monitor state used by the mutter apply path
(struct MutterMonitorInfo, mutter.c 294-308). -/
structure MutterMonitorInfo where
  connector : String
  modes : List MMode
  current_x : Int
  current_y : Int
  current_scale : Rat
  current_transform : Nat
  is_primary : Bool
  is_enabled : Bool
  current_mode_id : Option String
  display_id : Int
deriving DecidableEq, Repr

/-- parse_monitors_from_state, per monitor (mutter.c 449-496):
current mode = first mode flagged is-current; position, scale,
transform, primary from the logical monitors; enabled iff a current
mode exists; display_id from the mapping, -1 when unmapped. -/
def parse_monitor (mapping : ConnectorMapping) (logicals : List MLogical)
    (m : MMonitor) : MutterMonitorInfo :=
  let cur := (m.modes.find? (fun md => md.is_current)).map MMode.id
  let lm := find_logical_monitor_info logicals m.connector
  { connector := m.connector, modes := m.modes,
    current_x := lm.1, current_y := lm.2.1, current_scale := lm.2.2.1,
    current_transform := lm.2.2.2.1, is_primary := lm.2.2.2.2,
    is_enabled := cur.isSome, current_mode_id := cur,
    display_id := match mapping.lookup m.connector with
                  | some v => (v : Int)
                  | none => -1 }

/-- parse_monitors_from_state (mutter.c 437-507) over the whole state. -/
def parse_monitors_from_state (mapping : ConnectorMapping)
    (logicals : List MLogical) (monitors : List MMonitor) :
    List MutterMonitorInfo :=
  monitors.map (parse_monitor mapping logicals)

/-- find_mode_for_resolution (mutter.c 512-543): the id of the best
exact match, NULL when none exists. -/
def find_mode_for_resolution (info : MutterMonitorInfo) (w h : Int) :
    Option String :=
  (mutter_find_mode info.modes w h).map MMode.id

/-- The reverse-lookup loop of mutter (mutter.c 618-625): first parsed
monitor whose display_id equals the entry index. -/
def mutter_resolve_loop (i : Nat) : List MutterMonitorInfo → Option MutterMonitorInfo
  | [] => none
  | t :: rest => if t.display_id = (i : Int) then some t else mutter_resolve_loop i rest

/-- Target monitor for SPICE display `i` in mutter (mutter.c 614-631):
reverse lookup by display_id, then fallback to the monitor at index `i`. -/
def mutter_resolve (monitors : List MutterMonitorInfo) (i : Nat) :
    Option MutterMonitorInfo :=
  match mutter_resolve_loop i monitors with
  | some t => some t
  | none => if i < monitors.length then monitors[i]? else none

/-- One logical-monitor entry of the ApplyMonitorsConfig argument
(mutter.c 673-679): (x, y, scale, transform, primary, [(connector,
mode_id, props)]). -/
structure MutterLogicalOp where
  x : Int
  y : Int
  scale : Rat
  transform : Nat
  primary : Bool
  connector : String
  mode_id : String
deriving DecidableEq, Repr

/-- The logical-monitor operation built for layout entry `i` in mutter
(mutter.c 611-680): none when no monitor resolves or when neither an
exact mode nor a current mode id exists (both `continue`); otherwise
position from the entry, scale carried over when positive else 1.0,
transform carried over, primary exactly for entry 0. -/
def mutter_op_of_entry (monitors : List MutterMonitorInfo) (i : Nat)
    (mc : MonConfigEntry) : Option MutterLogicalOp :=
  match mutter_resolve monitors i with
  | none => none
  | some t =>
    match (match find_mode_for_resolution t mc.width mc.height with
           | some mid => some mid
           | none => t.current_mode_id) with
    | none => none
    | some mid =>
      some { x := mc.x, y := mc.y,
             scale := if t.current_scale > 0 then t.current_scale else 1,
             transform := t.current_transform,
             primary := decide (i = 0),
             connector := t.connector, mode_id := mid }

/-- The mutter apply loop over the layout entries (mutter.c 611-680). -/
def mutter_build_ops_from (monitors : List MutterMonitorInfo) (i : Nat) :
    List MonConfigEntry → List MutterLogicalOp
  | [] => []
  | mc :: rest =>
    match mutter_op_of_entry monitors i mc with
    | some op => op :: mutter_build_ops_from monitors (i + 1) rest
    | none => mutter_build_ops_from monitors (i + 1) rest

/-- All logical-monitor operations vdagent_mutter_set_monitor_config
passes to ApplyMonitorsConfig for a requested layout. -/
def mutter_build_ops (monitors : List MutterMonitorInfo)
    (mons : List MonConfigEntry) : List MutterLogicalOp :=
  mutter_build_ops_from monitors 0 mons

/- ===================================================================
   The kwin confirmation wait (kwin.c 696-718): a poll loop of at most
   50 iterations; each iteration performs one wl_display_roundtrip
   (delivering the applied/failed callbacks) and then, if neither flag
   is set, sleeps 100 ms and consumes one iteration.  The stream
   `sig n` gives the (config_applied, config_failed) flags after `n`
   roundtrips; both start FALSE (kwin.c 619-620) and the callbacks
   only ever set them TRUE.
   =================================================================== -/

/-- The wait loop with `fuel` iterations left after `r` roundtrips so
far, entered with both flags still clear; returns the final flag pair
(kwin.c 697-704). -/
def kwin_poll_loop (sig : Nat → Bool × Bool) : Nat → Nat → Bool × Bool
  | 0, _ => (false, false)
  | fuel + 1, r =>
    let f := sig (r + 1)
    if f.1 || f.2 then f else kwin_poll_loop sig fuel (r + 1)

/-- Return value of vdagent_kwin_set_monitor_config after the wait
(kwin.c 708-718): -1 when config_failed, -1 when not config_applied,
0 otherwise. -/
def vdagent_kwin_config_wait (sig : Nat → Bool × Bool) : Int :=
  let f := kwin_poll_loop sig 50 0
  if f.2 then -1 else if !f.1 then -1 else 0

/- ===================================================================
   Discovery characterisation.
   =================================================================== -/

/-- The mapped record list of a discovery round: the enabled, ready
records whose connector is present in the mapping, in discovery
order, carrying the mapped display id. -/
def mapped_of (mapping : ConnectorMapping)
    (items : List (Option String × Resolution)) : List Resolution :=
  items.filterMap
    (fun it => (it.1.bind mapping.lookup).map (fun v => { it.2 with display_id := Int.ofNat v }))

/-- The unmapped record list of a discovery round: the enabled, ready
records whose connector is absent from the mapping (or nameless), in
discovery order. -/
def unmapped_of (mapping : ConnectorMapping)
    (items : List (Option String × Resolution)) : List Resolution :=
  (items.filter (fun it => (it.1.bind mapping.lookup).isNone)).map Prod.snd

/-- Desktop-bound accumulation over a list of extents, from a starting
value. -/
def fold_bound (w0 : Int) (xs : List Int) : Int := xs.foldl acc_max w0

theorem mapped_of_cons_none (mapping : ConnectorMapping)
    (it : Option String × Resolution) (rest : List (Option String × Resolution))
    (h : it.1.bind mapping.lookup = none) :
    mapped_of mapping (it :: rest) = mapped_of mapping rest := by
  unfold mapped_of
  rw [List.filterMap_cons]
  simp only [h, Option.map_none']

theorem mapped_of_cons_some (mapping : ConnectorMapping)
    (it : Option String × Resolution) (rest : List (Option String × Resolution))
    (v : Nat) (h : it.1.bind mapping.lookup = some v) :
    mapped_of mapping (it :: rest) =
      { it.2 with display_id := Int.ofNat v } :: mapped_of mapping rest := by
  unfold mapped_of
  rw [List.filterMap_cons]
  simp only [h, Option.map_some']

theorem unmapped_of_cons_none (mapping : ConnectorMapping)
    (it : Option String × Resolution) (rest : List (Option String × Resolution))
    (h : it.1.bind mapping.lookup = none) :
    unmapped_of mapping (it :: rest) = it.2 :: unmapped_of mapping rest := by
  unfold unmapped_of
  rw [List.filter_cons]
  simp [h]

theorem unmapped_of_cons_some (mapping : ConnectorMapping)
    (it : Option String × Resolution) (rest : List (Option String × Resolution))
    (v : Nat) (h : it.1.bind mapping.lookup = some v) :
    unmapped_of mapping (it :: rest) = unmapped_of mapping rest := by
  unfold unmapped_of
  rw [List.filter_cons]
  simp [h]

theorem disc_foldl_eq (mapping : ConnectorMapping)
    (items : List (Option String × Resolution)) (st : DiscAcc) :
    items.foldl (disc_step mapping) st =
      ⟨st.found ++ mapped_of mapping items, st.notFound ++ unmapped_of mapping items,
       fold_bound st.w (items.map (fun it => it.2.x + it.2.width)),
       fold_bound st.h (items.map (fun it => it.2.y + it.2.height))⟩ := by
  induction items generalizing st with
  | nil => simp [mapped_of, unmapped_of, fold_bound]
  | cons it rest ih =>
    cases hv : it.1.bind mapping.lookup with
    | none =>
      have hstep : disc_step mapping st it =
          ⟨st.found, st.notFound ++ [it.2], acc_max st.w (it.2.x + it.2.width),
           acc_max st.h (it.2.y + it.2.height)⟩ := by
        simp [disc_step, hv]
      rw [List.foldl_cons, hstep, ih,
          mapped_of_cons_none mapping it rest hv, unmapped_of_cons_none mapping it rest hv]
      simp [fold_bound, List.append_assoc]
    | some v =>
      have hstep : disc_step mapping st it =
          ⟨st.found ++ [{ it.2 with display_id := Int.ofNat v }], st.notFound,
           acc_max st.w (it.2.x + it.2.width), acc_max st.h (it.2.y + it.2.height)⟩ := by
        simp [disc_step, hv]
      rw [List.foldl_cons, hstep, ih,
          mapped_of_cons_some mapping it rest v hv, unmapped_of_cons_some mapping it rest v hv]
      simp [fold_bound, List.append_assoc]

theorem discovery_core_eq (mapping : ConnectorMapping)
    (items : List (Option String × Resolution)) (w0 h0 : Int) :
    discovery_core mapping items w0 h0 =
      ((if (mapped_of mapping items).length = 0
        then assign_index_ids (unmapped_of mapping items)
        else mapped_of mapping items),
       fold_bound w0 (items.map (fun it => it.2.x + it.2.width)),
       fold_bound h0 (items.map (fun it => it.2.y + it.2.height))) := by
  unfold discovery_core
  rw [disc_foldl_eq]
  simp only [disc_finish, List.nil_append]
  split <;> rfl

theorem unmapped_of_all (mapping : ConnectorMapping)
    (items : List (Option String × Resolution))
    (h : (mapped_of mapping items).length = 0) :
    unmapped_of mapping items = items.map Prod.snd := by
  rw [List.length_eq_zero] at h
  unfold mapped_of at h
  have hall := List.filterMap_eq_nil_iff.mp h
  unfold unmapped_of
  have hfil : items.filter (fun it => (it.1.bind mapping.lookup).isNone) = items := by
    apply List.filter_eq_self.mpr
    intro it hit
    have hb : (it.1.bind mapping.lookup) = none := by
      simpa using hall it hit
    rw [Option.isNone_iff_eq_none]
    exact hb
  rw [hfil]

theorem acc_max_eq_max (a v : Int) : acc_max a v = max a v := by
  unfold acc_max
  rw [max_def]
  split <;> split <;> omega

theorem fold_bound_eq_foldl_max (xs : List Int) : ∀ w0 : Int, fold_bound w0 xs = xs.foldl max w0 := by
  induction xs with
  | nil => intro w0; rfl
  | cons x rest ih =>
    intro w0
    unfold fold_bound at ih ⊢
    rw [List.foldl_cons, List.foldl_cons, acc_max_eq_max, ih]

theorem foldl_max_eq_of : ∀ (xs : List Int) (a M : Int), a ≤ M → (M ∈ xs ∨ a = M) →
    (∀ v ∈ xs, v ≤ M) → xs.foldl max a = M
  | [], a, M, _, hmem, _ => by
    rcases hmem with h | h
    · exact absurd h (List.not_mem_nil M)
    · simpa using h
  | x :: rest, a, M, haM, hmem, hub => by
    rw [List.foldl_cons]
    have hxM : x ≤ M := hub x (List.mem_cons_self x rest)
    have hub2 : ∀ v ∈ rest, v ≤ M := fun v hv => hub v (List.mem_cons_of_mem x hv)
    have hmax : max a x ≤ M := max_le haM hxM
    rcases hmem with h | h
    · rcases List.mem_cons.mp h with hx | hr
      · refine foldl_max_eq_of rest (max a x) M hmax (Or.inr ?_) hub2
        rw [hx] at haM ⊢
        exact max_eq_right haM
      · exact foldl_max_eq_of rest (max a x) M hmax (Or.inl hr) hub2
    · refine foldl_max_eq_of rest (max a x) M hmax (Or.inr ?_) hub2
      rw [← h] at hxM ⊢
      exact max_eq_left hxM

theorem kwin_res_eq (mapping : ConnectorMapping) (outs : List KWinOutput) :
    (vdagent_kwin_get_resolutions mapping outs).res =
      (if (mapped_of mapping (kwin_items outs)).length = 0
       then assign_index_ids (unmapped_of mapping (kwin_items outs))
       else mapped_of mapping (kwin_items outs)) := by
  simp only [vdagent_kwin_get_resolutions, discovery_core_eq]

theorem mutter_res_eq (mapping : ConnectorMapping) (monitors : List MMonitor)
    (logicals : List MLogical) (dw dh : Int) :
    (vdagent_mutter_get_resolutions mapping monitors logicals dw dh).res =
      (if (mapped_of mapping (mutter_items logicals monitors)).length = 0
       then assign_index_ids (unmapped_of mapping (mutter_items logicals monitors))
       else mapped_of mapping (mutter_items logicals monitors)) := by
  simp only [vdagent_mutter_get_resolutions, discovery_core_eq]

theorem kwin_bounds_eq (mapping : ConnectorMapping) (outs : List KWinOutput) :
    (vdagent_kwin_get_resolutions mapping outs).width =
      ((kwin_items outs).map (fun it => it.2.x + it.2.width)).foldl max 0 ∧
    (vdagent_kwin_get_resolutions mapping outs).height =
      ((kwin_items outs).map (fun it => it.2.y + it.2.height)).foldl max 0 := by
  simp only [vdagent_kwin_get_resolutions, discovery_core_eq, fold_bound_eq_foldl_max]
  constructor <;> trivial

theorem mutter_bounds_eq (mapping : ConnectorMapping) (monitors : List MMonitor)
    (logicals : List MLogical) (dw dh : Int) :
    (vdagent_mutter_get_resolutions mapping monitors logicals dw dh).width =
      ((mutter_items logicals monitors).map (fun it => it.2.x + it.2.width)).foldl max dw ∧
    (vdagent_mutter_get_resolutions mapping monitors logicals dw dh).height =
      ((mutter_items logicals monitors).map (fun it => it.2.y + it.2.height)).foldl max dh := by
  simp only [vdagent_mutter_get_resolutions, discovery_core_eq, fold_bound_eq_foldl_max]
  constructor <;> trivial

theorem assign_ids_from_ge (rs : List Resolution) : ∀ (i : Nat) (x : Int),
    x ∈ (assign_ids_from i rs).map Resolution.display_id → (i : Int) ≤ x := by
  induction rs with
  | nil => intro i x hx; simp [assign_ids_from] at hx
  | cons r rest ih =>
    intro i x hx
    rw [show assign_ids_from i (r :: rest) =
        { r with display_id := (i : Int) } :: assign_ids_from (i + 1) rest from rfl,
       List.map_cons] at hx
    rcases List.mem_cons.mp hx with h | h
    · simp at h
      omega
    · have := ih (i + 1) x h
      omega

theorem assign_ids_from_nodup (rs : List Resolution) : ∀ i : Nat,
    ((assign_ids_from i rs).map Resolution.display_id).Nodup := by
  induction rs with
  | nil => intro i; simp [assign_ids_from]
  | cons r rest ih =>
    intro i
    rw [show assign_ids_from i (r :: rest) =
        { r with display_id := (i : Int) } :: assign_ids_from (i + 1) rest from rfl]
    rw [List.map_cons, List.nodup_cons]
    refine ⟨fun hmem => ?_, ih (i + 1)⟩
    have h2 : ((i : Int)) ∈ (assign_ids_from (i + 1) rest).map Resolution.display_id := by
      simpa using hmem
    have := assign_ids_from_ge rest (i + 1) _ h2
    omega

/- ===================================================================
   Claims about discovery.
   =================================================================== -/

/-- Claim C1: a discovery call returns exactly the mapped enabled,
ready records (with the mapped display ids, unmapped outputs dropped)
when at least one connector is in the mapping, and otherwise all
enabled, ready records in discovery order with display_id equal to
the position index; moreover when nothing is mapped the unmapped list
is exactly all enabled, ready records. -/
theorem discovery_identifier_assignment :
    (∀ (mapping : ConnectorMapping) (outs : List KWinOutput),
        (vdagent_kwin_get_resolutions mapping outs).res =
          if (mapped_of mapping (kwin_items outs)).length = 0
          then assign_index_ids (unmapped_of mapping (kwin_items outs))
          else mapped_of mapping (kwin_items outs)) ∧
    (∀ (mapping : ConnectorMapping) (monitors : List MMonitor)
        (logicals : List MLogical) (dw dh : Int),
        (vdagent_mutter_get_resolutions mapping monitors logicals dw dh).res =
          if (mapped_of mapping (mutter_items logicals monitors)).length = 0
          then assign_index_ids (unmapped_of mapping (mutter_items logicals monitors))
          else mapped_of mapping (mutter_items logicals monitors)) ∧
    (∀ (mapping : ConnectorMapping) (items : List (Option String × Resolution)),
        (mapped_of mapping items).length = 0 →
        unmapped_of mapping items = items.map Prod.snd) :=
  ⟨kwin_res_eq, mutter_res_eq, unmapped_of_all⟩

/-- Witness for C1: with an empty mapping, the unmapped list of a
one-output discovery is that output's record itself. -/
theorem discovery_identifier_assignment_witness :
    unmapped_of [] [(some "Virtual-1", ⟨1920, 1080, 0, 0, 0⟩)] =
      [(⟨1920, 1080, 0, 0, 0⟩ : Resolution)] :=
  discovery_identifier_assignment.2.2 [] [(some "Virtual-1", ⟨1920, 1080, 0, 0, 0⟩)] (by decide)

/-- Claim C2 (amended): the returned desktop bounds are the fold of
`max` over (x+width) resp. (y+height) of the enabled, ready records,
starting from the initial accumulator (0 in kwin; the caller-supplied
in-out value in mutter) — so they equal the claimed max(x+width) and
max(y+height) whenever that max is attained and non-negative. -/
theorem desktop_bounds_accumulated :
    (∀ (mapping : ConnectorMapping) (outs : List KWinOutput),
        (vdagent_kwin_get_resolutions mapping outs).width =
          ((kwin_items outs).map (fun it => it.2.x + it.2.width)).foldl max 0 ∧
        (vdagent_kwin_get_resolutions mapping outs).height =
          ((kwin_items outs).map (fun it => it.2.y + it.2.height)).foldl max 0) ∧
    (∀ (mapping : ConnectorMapping) (monitors : List MMonitor)
        (logicals : List MLogical) (dw dh : Int),
        (vdagent_mutter_get_resolutions mapping monitors logicals dw dh).width =
          ((mutter_items logicals monitors).map (fun it => it.2.x + it.2.width)).foldl max dw ∧
        (vdagent_mutter_get_resolutions mapping monitors logicals dw dh).height =
          ((mutter_items logicals monitors).map (fun it => it.2.y + it.2.height)).foldl max dh) ∧
    (∀ (mapping : ConnectorMapping) (outs : List KWinOutput) (M : Int),
        0 ≤ M →
        M ∈ (kwin_items outs).map (fun it => it.2.x + it.2.width) →
        (∀ v ∈ (kwin_items outs).map (fun it => it.2.x + it.2.width), v ≤ M) →
        (vdagent_kwin_get_resolutions mapping outs).width = M) := by
  refine ⟨kwin_bounds_eq, mutter_bounds_eq, ?_⟩
  intro mapping outs M hM hmem hub
  rw [(kwin_bounds_eq mapping outs).1]
  exact foldl_max_eq_of _ 0 M hM (Or.inl hmem) hub

/-- Witness for C2: the spec's own example — outputs 1920x1080 at
(0,0) and 1280x1024 at (1920,0) give desktop width 3200 (= the max of
x+width, attained and non-negative). -/
theorem desktop_bounds_accumulated_witness :
    (vdagent_kwin_get_resolutions []
      [{ name := some "Virtual-1", x := 0, y := 0, width := 1920, height := 1080,
         transform := 0, scale := 1, enabled := true, modes := [], current_mode := none,
         done := true },
       { name := some "Virtual-2", x := 1920, y := 0, width := 1280, height := 1024,
         transform := 0, scale := 1, enabled := true, modes := [], current_mode := none,
         done := true }]).width = 3200 :=
  desktop_bounds_accumulated.2.2 []
    [{ name := some "Virtual-1", x := 0, y := 0, width := 1920, height := 1080,
       transform := 0, scale := 1, enabled := true, modes := [], current_mode := none,
       done := true },
     { name := some "Virtual-2", x := 1920, y := 0, width := 1280, height := 1024,
       transform := 0, scale := 1, enabled := true, modes := [], current_mode := none,
       done := true }] 3200 (by decide) (by decide) (by decide)

/-- Counterexample for C2 as claimed: a single enabled, ready output
at x = -200 with width 100 has max(x+width) = -100, yet the returned
desktop width is 0, because the accumulator starts at 0. -/
theorem desktop_bounds_counterexample :
    ((kwin_items
        [{ name := some "Virtual-1", x := -200, y := 0, width := 100, height := 100,
           transform := 0, scale := 1, enabled := true, modes := [], current_mode := none,
           done := true }]).map (fun it => it.2.x + it.2.width)) = [-100] ∧
    (vdagent_kwin_get_resolutions []
      [{ name := some "Virtual-1", x := -200, y := 0, width := 100, height := 100,
         transform := 0, scale := 1, enabled := true, modes := [], current_mode := none,
         done := true }]).width = 0 :=
  ⟨rfl, rfl⟩

/-- Claim C8 (amended): kwin's screen_count is the number of enabled,
ready outputs of the snapshot; mutter's screen_count is the total
number of monitors reported by GetCurrentState, including monitors
with no current mode. -/
theorem screen_count_policy :
    (∀ (mapping : ConnectorMapping) (outs : List KWinOutput),
        (vdagent_kwin_get_resolutions mapping outs).screen_count =
          (outs.filter (fun o => o.done && o.enabled)).length) ∧
    (∀ (mapping : ConnectorMapping) (monitors : List MMonitor)
        (logicals : List MLogical) (dw dh : Int),
        (vdagent_mutter_get_resolutions mapping monitors logicals dw dh).screen_count =
          monitors.length) :=
  ⟨fun _ _ => rfl, fun _ _ _ _ _ => rfl⟩

/-- Counterexample for C8 as claimed: a mutter monitor with no current
mode (disabled) yields no enabled, ready record and an empty result,
yet is still counted in screen_count. -/
theorem screen_count_counterexample :
    (vdagent_mutter_get_resolutions [] [{ connector := "Virtual-1", modes := [] }] [] 0 0).screen_count = 1 ∧
    (mutter_items [] [{ connector := "Virtual-1", modes := [] }]).length = 0 ∧
    (vdagent_mutter_get_resolutions [] [{ connector := "Virtual-1", modes := [] }] [] 0 0).res = [] :=
  ⟨rfl, rfl, rfl⟩

/-- Claim C9 (amended): the display ids of one discovery result are
pairwise distinct provided the ids the mapping assigns to the mapped
records are pairwise distinct; in the fallback branch (nothing
mapped) they are always distinct. -/
theorem display_id_uniqueness :
    (∀ (mapping : ConnectorMapping) (outs : List KWinOutput),
        ((mapped_of mapping (kwin_items outs)).map Resolution.display_id).Nodup →
        ((vdagent_kwin_get_resolutions mapping outs).res.map Resolution.display_id).Nodup) ∧
    (∀ (mapping : ConnectorMapping) (monitors : List MMonitor)
        (logicals : List MLogical) (dw dh : Int),
        ((mapped_of mapping (mutter_items logicals monitors)).map Resolution.display_id).Nodup →
        ((vdagent_mutter_get_resolutions mapping monitors logicals dw dh).res.map Resolution.display_id).Nodup) := by
  constructor
  · intro mapping outs hnd
    rw [kwin_res_eq]
    split
    · exact assign_ids_from_nodup _ 0
    · exact hnd
  · intro mapping monitors logicals dw dh hnd
    rw [mutter_res_eq]
    split
    · exact assign_ids_from_nodup _ 0
    · exact hnd

/-- Witness for C9: a mapped one-output discovery under an injective
mapping has pairwise distinct display ids. -/
theorem display_id_uniqueness_witness :
    ((vdagent_kwin_get_resolutions [("Virtual-1", 3)]
        [{ name := some "Virtual-1", x := 0, y := 0, width := 1920, height := 1080,
           transform := 0, scale := 1, enabled := true, modes := [], current_mode := none,
           done := true }]).res.map Resolution.display_id).Nodup :=
  display_id_uniqueness.1 [("Virtual-1", 3)]
    [{ name := some "Virtual-1", x := 0, y := 0, width := 1920, height := 1080,
       transform := 0, scale := 1, enabled := true, modes := [], current_mode := none,
       done := true }] (by decide)

/-- Counterexample for C9 as claimed: a mapping that sends two present
connectors to the same id yields a discovery result with duplicate
display ids — the code never enforces uniqueness in the mapped
branch. -/
theorem display_id_uniqueness_counterexample :
    ((vdagent_kwin_get_resolutions [("Virtual-1", 0), ("Virtual-2", 0)]
        [{ name := some "Virtual-1", x := 0, y := 0, width := 1920, height := 1080,
           transform := 0, scale := 1, enabled := true, modes := [], current_mode := none,
           done := true },
         { name := some "Virtual-2", x := 1920, y := 0, width := 1280, height := 1024,
           transform := 0, scale := 1, enabled := true, modes := [], current_mode := none,
           done := true }]).res.map Resolution.display_id) = [0, 0] ∧
    ¬ ((vdagent_kwin_get_resolutions [("Virtual-1", 0), ("Virtual-2", 0)]
        [{ name := some "Virtual-1", x := 0, y := 0, width := 1920, height := 1080,
           transform := 0, scale := 1, enabled := true, modes := [], current_mode := none,
           done := true },
         { name := some "Virtual-2", x := 1920, y := 0, width := 1280, height := 1024,
           transform := 0, scale := 1, enabled := true, modes := [], current_mode := none,
           done := true }]).res.map Resolution.display_id).Nodup :=
  ⟨rfl, by decide⟩

/- ===================================================================
   Mode selector characterisation.
   =================================================================== -/

/-- The first element of a list attaining the maximal key: the
declarative counterpart of the best-match scan. -/
def first_max {A B : Type} [LinearOrder B] (rf : A → B) : List A → Option A
  | [] => none
  | m :: rest =>
    match first_max rf rest with
    | none => some m
    | some c => if rf m < rf c then some c else some m


theorem first_max_cons {A B : Type} [LinearOrder B] (rf : A → B) (a : A) (rest : List A) :
    first_max rf (a :: rest) =
      match first_max rf rest with
      | none => some a
      | some c => if rf a < rf c then some c else some a := rfl

theorem first_max_head_lt {A B : Type} [LinearOrder B] (rf : A → B) (b m : A)
    (l : List A) (hbm : rf b < rf m) :
    first_max rf (b :: m :: l) = first_max rf (m :: l) := by
  rw [first_max_cons rf b (m :: l), first_max_cons rf m l]
  cases hF : first_max rf l with
  | none =>
    show (if rf b < rf m then some m else some b) = some m
    rw [if_pos hbm]
  | some c =>
    show (match (if rf m < rf c then some c else some m : Option A) with
          | none => some b
          | some c => if rf b < rf c then some c else some b) =
        (if rf m < rf c then some c else some m)
    by_cases hmc : rf m < rf c
    · rw [if_pos hmc]
      show (if rf b < rf c then some c else some b) = some c
      rw [if_pos (lt_trans hbm hmc)]
    · rw [if_neg hmc]
      show (if rf b < rf m then some m else some b) = some m
      rw [if_pos hbm]

theorem first_max_head_ge {A B : Type} [LinearOrder B] (rf : A → B) (b m : A)
    (l : List A) (hbm : ¬ rf b < rf m) :
    first_max rf (b :: m :: l) = first_max rf (b :: l) := by
  rw [first_max_cons rf b (m :: l), first_max_cons rf m l, first_max_cons rf b l]
  cases hF : first_max rf l with
  | none =>
    show (if rf b < rf m then some m else some b) = some b
    rw [if_neg hbm]
  | some c =>
    show (match (if rf m < rf c then some c else some m : Option A) with
          | none => some b
          | some c => if rf b < rf c then some c else some b) =
        (if rf b < rf c then some c else some b)
    by_cases hmc : rf m < rf c
    · rw [if_pos hmc]
    · rw [if_neg hmc]
      have hcb : ¬ rf b < rf c :=
        not_lt.mpr (le_trans (not_lt.mp hmc) (not_lt.mp hbm))
      show (if rf b < rf m then some m else some b) = if rf b < rf c then some c else some b
      rw [if_neg hbm, if_neg hcb]

theorem find_best_loop_some {A B : Type} [LinearOrder B] (p : A → Bool) (rf : A → B)
    (l : List A) : ∀ b : A,
    find_best_loop p rf l (some b) (rf b) = first_max rf (b :: l.filter p) := by
  induction l with
  | nil => intro b; rfl
  | cons m rest ih =>
    intro b
    cases hp : p m with
    | false =>
      rw [List.filter_cons_of_neg (by simp [hp])]
      simp only [find_best_loop, hp]
      exact ih b
    | true =>
      rw [List.filter_cons_of_pos (by simp [hp])]
      simp only [find_best_loop, hp, Option.isNone_some, Bool.false_or, if_true,
        decide_eq_true_eq]
      by_cases hbm : rf b < rf m
      · rw [if_pos hbm, ih m, first_max_head_lt rf b m (rest.filter p) hbm]
      · rw [if_neg hbm, ih b, first_max_head_ge rf b m (rest.filter p) hbm]

theorem find_best_loop_none {A B : Type} [LinearOrder B] (p : A → Bool) (rf : A → B)
    (l : List A) (z : B) :
    find_best_loop p rf l none z = first_max rf (l.filter p) := by
  cases l with
  | nil => rfl
  | cons m rest =>
    cases hp : p m with
    | false =>
      rw [List.filter_cons_of_neg (by simp [hp])]
      simp only [find_best_loop, hp]
      exact find_best_loop_none p rf rest z
    | true =>
      rw [List.filter_cons_of_pos (by simp [hp])]
      simp only [find_best_loop, hp, Option.isNone_none, Bool.true_or, if_true]
      exact find_best_loop_some p rf rest m

theorem first_max_eq_none {A B : Type} [LinearOrder B] (rf : A → B) (l : List A) :
    first_max rf l = none ↔ l = [] := by
  cases l with
  | nil => simp [first_max]
  | cons m rest =>
    constructor
    · intro h
      exfalso
      cases hF : first_max rf rest with
      | none =>
        rw [first_max_cons, hF] at h
        have h2 : some m = none := h
        exact Option.noConfusion h2
      | some c =>
        rw [first_max_cons, hF] at h
        have h2 : (if rf m < rf c then some c else some m) = none := h
        by_cases hmc : rf m < rf c
        · rw [if_pos hmc] at h2
          exact Option.noConfusion h2
        · rw [if_neg hmc] at h2
          exact Option.noConfusion h2
    · intro h
      cases h

theorem first_max_mem {A B : Type} [LinearOrder B] (rf : A → B) :
    ∀ (l : List A) (m : A), first_max rf l = some m → m ∈ l := by
  intro l
  induction l with
  | nil => intro m h; cases h
  | cons a rest ih =>
    intro m h
    cases hF : first_max rf rest with
    | none =>
      rw [first_max_cons, hF] at h
      have h2 : some a = some m := h
      rw [← Option.some_inj.mp h2]
      exact List.mem_cons_self a rest
    | some c =>
      rw [first_max_cons, hF] at h
      have h2 : (if rf a < rf c then some c else some a) = some m := h
      by_cases hac : rf a < rf c
      · rw [if_pos hac] at h2
        rw [← Option.some_inj.mp h2]
        exact List.mem_cons_of_mem a (ih _ hF)
      · rw [if_neg hac] at h2
        rw [← Option.some_inj.mp h2]
        exact List.mem_cons_self a rest

theorem first_max_ge {A B : Type} [LinearOrder B] (rf : A → B) :
    ∀ (l : List A) (m : A), first_max rf l = some m → ∀ x ∈ l, rf x ≤ rf m := by
  intro l
  induction l with
  | nil => intro m h; cases h
  | cons a rest ih =>
    intro m h x hx
    cases hF : first_max rf rest with
    | none =>
      have hrest : rest = [] := (first_max_eq_none rf rest).mp hF
      rw [first_max_cons, hF] at h
      have h2 : some a = some m := h
      rw [← Option.some_inj.mp h2]
      subst hrest
      rcases List.mem_cons.mp hx with hxa | hxr
      · rw [hxa]
      · cases hxr
    | some c =>
      rw [first_max_cons, hF] at h
      have h2 : (if rf a < rf c then some c else some a) = some m := h
      by_cases hac : rf a < rf c
      · rw [if_pos hac] at h2
        rw [← Option.some_inj.mp h2]
        rcases List.mem_cons.mp hx with hxa | hxr
        · rw [hxa]
          exact le_of_lt hac
        · exact ih _ hF x hxr
      · rw [if_neg hac] at h2
        rw [← Option.some_inj.mp h2]
        rcases List.mem_cons.mp hx with hxa | hxr
        · rw [hxa]
        · exact le_trans (ih _ hF x hxr) (not_lt.mp hac)

theorem first_max_first {A B : Type} [LinearOrder B] (rf : A → B) :
    ∀ (l : List A) (m : A), first_max rf l = some m →
      l.find? (fun x => decide (rf x = rf m)) = some m := by
  intro l
  induction l with
  | nil => intro m h; cases h
  | cons a rest ih =>
    intro m h
    cases hF : first_max rf rest with
    | none =>
      rw [first_max_cons, hF] at h
      have h2 : some a = some m := h
      rw [← Option.some_inj.mp h2]
      rw [List.find?_cons_of_pos _ (by simp)]
    | some c =>
      rw [first_max_cons, hF] at h
      have h2 : (if rf a < rf c then some c else some a) = some m := h
      by_cases hac : rf a < rf c
      · rw [if_pos hac] at h2
        have hm : m = c := (Option.some_inj.mp h2).symm
        subst hm
        rw [List.find?_cons_of_neg _ (by simp [ne_of_lt hac])]
        exact ih _ hF
      · rw [if_neg hac] at h2
        rw [← Option.some_inj.mp h2]
        rw [List.find?_cons_of_pos _ (by simp)]

theorem kwin_find_mode_eq (modes : List KWinMode) (w h : Int) :
    kwin_find_mode modes w h = first_max KWinMode.refresh (kwin_exact_matches modes w h) :=
  find_best_loop_none _ _ modes 0

theorem mutter_find_mode_eq (modes : List MMode) (w h : Int) :
    mutter_find_mode modes w h = first_max MMode.refresh_rate (mutter_exact_matches modes w h) :=
  find_best_loop_none _ _ modes 0

/-- Claim C3: both mode selectors return no mode exactly when no mode
has the requested width and height; a returned mode is an exact match
whose refresh rate is maximal among exact matches, and it is the first
exact match carrying that maximal refresh rate in discovery order. -/
theorem mode_selector_correct :
    (∀ (modes : List KWinMode) (w h : Int),
      (kwin_find_mode modes w h = none ↔ kwin_exact_matches modes w h = []) ∧
      (∀ m, kwin_find_mode modes w h = some m →
        m.width = w ∧ m.height = h ∧
        m ∈ kwin_exact_matches modes w h ∧
        (∀ x ∈ kwin_exact_matches modes w h, x.refresh ≤ m.refresh) ∧
        (kwin_exact_matches modes w h).find? (fun x => decide (x.refresh = m.refresh)) = some m)) ∧
    (∀ (modes : List MMode) (w h : Int),
      (mutter_find_mode modes w h = none ↔ mutter_exact_matches modes w h = []) ∧
      (∀ m, mutter_find_mode modes w h = some m →
        m.width = w ∧ m.height = h ∧
        m ∈ mutter_exact_matches modes w h ∧
        (∀ x ∈ mutter_exact_matches modes w h, x.refresh_rate ≤ m.refresh_rate) ∧
        (mutter_exact_matches modes w h).find? (fun x => decide (x.refresh_rate = m.refresh_rate)) = some m)) := by
  constructor
  · intro modes w h
    constructor
    · rw [kwin_find_mode_eq]
      exact first_max_eq_none _ _
    · intro m hm
      rw [kwin_find_mode_eq] at hm
      have hmem := first_max_mem _ _ _ hm
      have hmem2 : m ∈ modes.filter (kwin_mode_matches w h) := hmem
      have hwh := (List.mem_filter.mp hmem2).2
      simp only [kwin_mode_matches, Bool.and_eq_true, beq_iff_eq] at hwh
      exact ⟨hwh.1, hwh.2, hmem, first_max_ge _ _ _ hm, first_max_first _ _ _ hm⟩
  · intro modes w h
    constructor
    · rw [mutter_find_mode_eq]
      exact first_max_eq_none _ _
    · intro m hm
      rw [mutter_find_mode_eq] at hm
      have hmem := first_max_mem _ _ _ hm
      have hmem2 : m ∈ modes.filter (mutter_mode_matches w h) := hmem
      have hwh := (List.mem_filter.mp hmem2).2
      simp only [mutter_mode_matches, Bool.and_eq_true, beq_iff_eq] at hwh
      exact ⟨hwh.1, hwh.2, hmem, first_max_ge _ _ _ hm, first_max_first _ _ _ hm⟩

/-- Witness for C3: the spec's example — among
[(1920,1080,60000), (1920,1080,75000), (1280,720,60000)], selecting
1920x1080 yields the 75000 mHz mode, which dominates every exact
match. -/
theorem mode_selector_correct_witness :
    kwin_find_mode
        [⟨1920, 1080, 60000, false, false⟩, ⟨1920, 1080, 75000, false, false⟩,
         ⟨1280, 720, 60000, false, false⟩] 1920 1080 =
      some ⟨1920, 1080, 75000, false, false⟩ ∧
    (∀ x ∈ kwin_exact_matches
        [⟨1920, 1080, 60000, false, false⟩, ⟨1920, 1080, 75000, false, false⟩,
         ⟨1280, 720, 60000, false, false⟩] 1920 1080, x.refresh ≤ (75000 : Int)) :=
  ⟨rfl,
   ((mode_selector_correct.1
      [⟨1920, 1080, 60000, false, false⟩, ⟨1920, 1080, 75000, false, false⟩,
       ⟨1280, 720, 60000, false, false⟩] 1920 1080).2
      ⟨1920, 1080, 75000, false, false⟩ rfl).2.2.2.1⟩

/- ===================================================================
   The confirmation wait (Claim C4).
   =================================================================== -/

theorem kwin_poll_loop_quiet (sig : Nat → Bool × Bool) :
    ∀ (fuel r : Nat), (∀ k, r < k → k ≤ r + fuel → sig k = (false, false)) →
    kwin_poll_loop sig fuel r = (false, false) := by
  intro fuel
  induction fuel with
  | zero => intro r _; rfl
  | succ fn ih =>
    intro r hq
    have hs : sig (r + 1) = (false, false) := hq (r + 1) (by omega) (by omega)
    simp only [kwin_poll_loop, hs, Bool.or_false, if_false]
    exact ih (r + 1) (fun k hk1 hk2 => hq k (by omega) (by omega))

theorem kwin_poll_loop_first (sig : Nat → Bool × Bool) :
    ∀ (fuel r n : Nat), r < n → n ≤ r + fuel →
    (∀ k, r < k → k < n → sig k = (false, false)) →
    sig n ≠ (false, false) →
    kwin_poll_loop sig fuel r = sig n := by
  intro fuel
  induction fuel with
  | zero => intro r n h1 h2 _ _; omega
  | succ fn ih =>
    intro r n h1 h2 hq hs
    by_cases hrn : n = r + 1
    · subst hrn
      cases hf : sig (r + 1) with
      | mk a b =>
        cases a <;> cases b
        · exact absurd hf hs
        · simp [kwin_poll_loop, hf]
        · simp [kwin_poll_loop, hf]
        · simp [kwin_poll_loop, hf]
    · have hn : r + 1 < n := by omega
      have hq1 : sig (r + 1) = (false, false) := hq (r + 1) (by omega) hn
      simp only [kwin_poll_loop, hq1, Bool.or_false, if_false]
      exact ih (r + 1) n hn (by omega) (fun k hk1 hk2 => hq k (by omega) hk2) hs

/-- The kwin wait-loop constants: `int max_wait = 50` (kwin.c 697) and
the 100 ms sleep per iteration, `g_usleep(100000)` (kwin.c 701). -/
def kwin_max_wait : Nat := 50

/-- Milliseconds slept per kwin polling iteration (kwin.c 701). -/
def kwin_poll_interval_ms : Nat := 100

/-- The mutter backend performs its bounded wait as a single
synchronous ApplyMonitorsConfig DBus call (mutter.c 689-699): this is
the number of backend calls that wait makes — there is no polling
loop and no per-iteration event-processing re-entry. -/
def mutter_apply_sync_calls : Nat := 1

/-- The DBus timeout vdagent_mutter_set_monitor_config passes to its
single synchronous call: 5000 ms (mutter.c 697). -/
def mutter_apply_timeout_ms : Nat := 5000

/-- Return value of vdagent_mutter_set_monitor_config after the
submission (mutter.c 701-715): 0 exactly when the synchronous call
returned a result, -1 when it failed (DBus error or the 5000 ms
timeout expiring). -/
def vdagent_mutter_apply_ret (callOk : Bool) : Int :=
  if callOk then 0 else -1

/-- Claim C4 (amended): the apply call returns success exactly on the
confirmed signal and failure on the rejected signal or when no signal
arrives within the 5-second bound; the two backends realise the bound
differently.  kwin polls at most 50 iterations, one re-entry into
event processing (roundtrip) per iteration: if neither signal has
arrived after the 50 iterations the flags are still clear (timed out)
and the call returns failure (-1), and when the first signal arrives
at roundtrip n with n at most 50 the call returns success (0) exactly
when that signal is applied-and-not-failed.  mutter instead performs a
single synchronous DBus call with a 5000 ms timeout — the same total
budget as kwin's 50 iterations of 100 ms — returning 0 exactly when
the call succeeds, with no polling iterations at all. -/
theorem apply_confirm_wait :
    (∀ sig : Nat → Bool × Bool,
      (∀ k, 1 ≤ k → k ≤ 50 → sig k = (false, false)) →
      kwin_poll_loop sig 50 0 = (false, false) ∧ vdagent_kwin_config_wait sig = -1) ∧
    (∀ (sig : Nat → Bool × Bool) (n : Nat), 1 ≤ n → n ≤ 50 →
      (∀ k, 1 ≤ k → k < n → sig k = (false, false)) →
      sig n ≠ (false, false) →
      vdagent_kwin_config_wait sig = (if sig n = (true, false) then 0 else -1)) ∧
    (∀ callOk : Bool, vdagent_mutter_apply_ret callOk = 0 ↔ callOk = true) ∧
    (mutter_apply_sync_calls = 1 ∧
     kwin_max_wait * kwin_poll_interval_ms = mutter_apply_timeout_ms) := by
  refine ⟨?_, ?_, ?_, rfl, rfl⟩
  · intro sig hq
    have hl : kwin_poll_loop sig 50 0 = (false, false) :=
      kwin_poll_loop_quiet sig 50 0 (fun k hk1 hk2 => hq k (by omega) (by omega))
    refine ⟨hl, ?_⟩
    simp [vdagent_kwin_config_wait, hl]
  · intro sig n h1 h2 hq hs
    have hl : kwin_poll_loop sig 50 0 = sig n :=
      kwin_poll_loop_first sig 50 0 n (by omega) (by omega)
        (fun k hk1 hk2 => hq k (by omega) hk2) hs
    cases hsn : sig n with
    | mk a b =>
      cases a <;> cases b
      · exact absurd hsn hs
      · simp [vdagent_kwin_config_wait, hl, hsn]
      · simp [vdagent_kwin_config_wait, hl, hsn]
      · simp [vdagent_kwin_config_wait, hl, hsn]
  · intro callOk
    cases callOk <;> simp [vdagent_mutter_apply_ret]

/-- Witness for C4: when the applied signal arrives at the third
roundtrip, the kwin apply call returns success. -/
theorem apply_confirm_wait_witness :
    vdagent_kwin_config_wait (fun n => if n = 3 then (true, false) else (false, false)) = 0 := by
  have h := apply_confirm_wait.2.1 (fun n => if n = 3 then (true, false) else (false, false)) 3
    (by omega) (by omega)
    (fun k hk1 hk2 => by
      have hk3 : k ≠ 3 := by omega
      simp [hk3])
    (by decide)
  simpa using h

/-- Counterexample for C4 as claimed: the mutter backend's bounded
wait is one synchronous call with a 5000 ms timeout, not 50 polling
iterations of 100 ms each re-entering event processing; a failed
(rejected or timed-out) call returns -1 after that single call and a
successful one returns 0. -/
theorem apply_confirm_wait_counterexample :
    mutter_apply_sync_calls = 1 ∧ ¬ mutter_apply_sync_calls = 50 ∧
    mutter_apply_timeout_ms = 5000 ∧
    vdagent_mutter_apply_ret false = -1 ∧ vdagent_mutter_apply_ret true = 0 :=
  ⟨rfl, by decide, rfl, rfl, rfl⟩

/- ===================================================================
   Apply-path characterisation (Claims C5, C6, C7, C10).
   =================================================================== -/

theorem kwin_resolve_loop_eq (mapping : ConnectorMapping) (i : Nat) :
    ∀ outs : List KWinOutput,
      kwin_resolve_loop mapping i outs =
        outs.find? (fun o => (o.name.bind mapping.lookup) == some i) := by
  intro outs
  induction outs with
  | nil => rfl
  | cons o rest ih =>
    cases hn : o.name with
    | none =>
      rw [List.find?_cons_of_neg _ (by simp [hn])]
      simp only [kwin_resolve_loop, hn]
      exact ih
    | some nm =>
      cases hv : mapping.lookup nm with
      | none =>
        rw [List.find?_cons_of_neg _ (by simp [hn, hv])]
        simp only [kwin_resolve_loop, hn, hv]
        exact ih
      | some v =>
        by_cases hvi : v = i
        · subst hvi
          rw [List.find?_cons_of_pos _ (by simp [hn, hv])]
          simp [kwin_resolve_loop, hn, hv]
        · rw [List.find?_cons_of_neg _ (by simp [hn, hv, hvi])]
          simp only [kwin_resolve_loop, hn, hv, if_neg hvi]
          exact ih

theorem mutter_resolve_loop_eq (i : Nat) :
    ∀ monitors : List MutterMonitorInfo,
      mutter_resolve_loop i monitors =
        monitors.find? (fun t => t.display_id == (i : Int)) := by
  intro monitors
  induction monitors with
  | nil => rfl
  | cons t rest ih =>
    by_cases ht : t.display_id = (i : Int)
    · rw [List.find?_cons_of_pos _ (by simp [ht])]
      simp only [mutter_resolve_loop, if_pos ht]
    · rw [List.find?_cons_of_neg _ (by simp [ht])]
      simp only [mutter_resolve_loop, if_neg ht]
      exact ih

theorem kwin_resolve_output_fallback (mapping : ConnectorMapping)
    (outs : List KWinOutput) (i : Nat)
    (h : kwin_resolve_loop mapping i outs = none) :
    kwin_resolve_output mapping outs i = outs[i]? := by
  unfold kwin_resolve_output
  rw [h]
  show (if i < outs.length then outs[i]? else none) = outs[i]?
  by_cases hi : i < outs.length
  · rw [if_pos hi]
  · rw [if_neg hi]
    symm
    exact List.getElem?_eq_none (by omega)

theorem mutter_resolve_fallback (monitors : List MutterMonitorInfo) (i : Nat)
    (h : mutter_resolve_loop i monitors = none) :
    mutter_resolve monitors i = monitors[i]? := by
  unfold mutter_resolve
  rw [h]
  show (if i < monitors.length then monitors[i]? else none) = monitors[i]?
  by_cases hi : i < monitors.length
  · rw [if_pos hi]
  · rw [if_neg hi]
    symm
    exact List.getElem?_eq_none (by omega)

theorem kwin_build_ops_from_mem (mapping : ConnectorMapping) (outs : List KWinOutput) :
    ∀ (mons : List MonConfigEntry) (i0 j : Nat) (mc : MonConfigEntry) (op : KWinOp),
      mons[j]? = some mc → kwin_op_of_entry mapping outs (i0 + j) mc = some op →
      op ∈ kwin_build_ops_from mapping outs i0 mons := by
  intro mons
  induction mons with
  | nil =>
    intro i0 j mc op hj _
    rw [List.getElem?_nil] at hj
    cases hj
  | cons mc0 rest ih =>
    intro i0 j mc op hj hop
    cases j with
    | zero =>
      rw [List.getElem?_cons_zero, Option.some_inj] at hj
      rw [Nat.add_zero] at hop
      subst hj
      simp only [kwin_build_ops_from, hop]
      exact List.mem_cons_self op _
    | succ jn =>
      rw [List.getElem?_cons_succ] at hj
      rw [show i0 + (jn + 1) = (i0 + 1) + jn by omega] at hop
      cases hc : kwin_op_of_entry mapping outs i0 mc0 with
      | none =>
        simp only [kwin_build_ops_from, hc]
        exact ih (i0 + 1) jn mc op hj hop
      | some op0 =>
        simp only [kwin_build_ops_from, hc]
        exact List.mem_cons_of_mem op0 (ih (i0 + 1) jn mc op hj hop)

theorem mutter_build_ops_from_mem (monitors : List MutterMonitorInfo) :
    ∀ (mons : List MonConfigEntry) (i0 j : Nat) (mc : MonConfigEntry) (op : MutterLogicalOp),
      mons[j]? = some mc → mutter_op_of_entry monitors (i0 + j) mc = some op →
      op ∈ mutter_build_ops_from monitors i0 mons := by
  intro mons
  induction mons with
  | nil =>
    intro i0 j mc op hj _
    rw [List.getElem?_nil] at hj
    cases hj
  | cons mc0 rest ih =>
    intro i0 j mc op hj hop
    cases j with
    | zero =>
      rw [List.getElem?_cons_zero, Option.some_inj] at hj
      rw [Nat.add_zero] at hop
      subst hj
      simp only [mutter_build_ops_from, hop]
      exact List.mem_cons_self op _
    | succ jn =>
      rw [List.getElem?_cons_succ] at hj
      rw [show i0 + (jn + 1) = (i0 + 1) + jn by omega] at hop
      cases hc : mutter_op_of_entry monitors i0 mc0 with
      | none =>
        simp only [mutter_build_ops_from, hc]
        exact ih (i0 + 1) jn mc op hj hop
      | some op0 =>
        simp only [mutter_build_ops_from, hc]
        exact List.mem_cons_of_mem op0 (ih (i0 + 1) jn mc op hj hop)

theorem mutter_build_ops_from_mem_inv (monitors : List MutterMonitorInfo) :
    ∀ (mons : List MonConfigEntry) (i0 : Nat) (op : MutterLogicalOp),
      op ∈ mutter_build_ops_from monitors i0 mons →
      ∃ (j : Nat) (mc : MonConfigEntry), mons[j]? = some mc ∧
        mutter_op_of_entry monitors (i0 + j) mc = some op := by
  intro mons
  induction mons with
  | nil =>
    intro i0 op hmem
    simp only [mutter_build_ops_from] at hmem
    cases hmem
  | cons mc0 rest ih =>
    intro i0 op hmem
    cases hc : mutter_op_of_entry monitors i0 mc0 with
    | none =>
      simp only [mutter_build_ops_from, hc] at hmem
      obtain ⟨j, mc, hj, hop⟩ := ih (i0 + 1) op hmem
      exact ⟨j + 1, mc, by rw [List.getElem?_cons_succ]; exact hj,
        by rw [show i0 + (j + 1) = (i0 + 1) + j by omega]; exact hop⟩
    | some op0 =>
      simp only [mutter_build_ops_from, hc] at hmem
      rcases List.mem_cons.mp hmem with hop | hrest
      · subst hop
        exact ⟨0, mc0, List.getElem?_cons_zero, by rw [Nat.add_zero]; exact hc⟩
      · obtain ⟨j, mc, hj, hop⟩ := ih (i0 + 1) op hrest
        exact ⟨j + 1, mc, by rw [List.getElem?_cons_succ]; exact hj,
          by rw [show i0 + (j + 1) = (i0 + 1) + j by omega]; exact hop⟩

/-- Claim C6: for every layout entry, the target output is the first
output whose connector name the mapping sends to the entry's display
id (its index); when no output resolves this way, the output at the
entry's positional index is used when in range; when neither exists,
exactly that entry is skipped (it builds no operation) while every
other entry's operation still appears in the submitted list. -/
theorem target_resolution_policy :
    (∀ (mapping : ConnectorMapping) (outs : List KWinOutput) (i : Nat),
        kwin_resolve_loop mapping i outs =
          outs.find? (fun o => (o.name.bind mapping.lookup) == some i)) ∧
    (∀ (mapping : ConnectorMapping) (outs : List KWinOutput) (i : Nat),
        kwin_resolve_loop mapping i outs = none →
        kwin_resolve_output mapping outs i = outs[i]?) ∧
    (∀ (monitors : List MutterMonitorInfo) (i : Nat),
        mutter_resolve_loop i monitors =
          monitors.find? (fun t => t.display_id == (i : Int))) ∧
    (∀ (monitors : List MutterMonitorInfo) (i : Nat),
        mutter_resolve_loop i monitors = none →
        mutter_resolve monitors i = monitors[i]?) ∧
    (∀ (mapping : ConnectorMapping) (outs : List KWinOutput) (i : Nat) (mc : MonConfigEntry),
        kwin_resolve_output mapping outs i = none →
        kwin_op_of_entry mapping outs i mc = none) ∧
    (∀ (monitors : List MutterMonitorInfo) (i : Nat) (mc : MonConfigEntry),
        mutter_resolve monitors i = none →
        mutter_op_of_entry monitors i mc = none) ∧
    (∀ (mapping : ConnectorMapping) (outs : List KWinOutput) (mons : List MonConfigEntry)
        (j : Nat) (mc : MonConfigEntry) (op : KWinOp),
        mons[j]? = some mc → kwin_op_of_entry mapping outs j mc = some op →
        op ∈ kwin_build_ops mapping outs mons) ∧
    (∀ (monitors : List MutterMonitorInfo) (mons : List MonConfigEntry)
        (j : Nat) (mc : MonConfigEntry) (op : MutterLogicalOp),
        mons[j]? = some mc → mutter_op_of_entry monitors j mc = some op →
        op ∈ mutter_build_ops monitors mons) := by
  refine ⟨fun mapping outs i => kwin_resolve_loop_eq mapping i outs,
    kwin_resolve_output_fallback,
    fun monitors i => mutter_resolve_loop_eq i monitors,
    mutter_resolve_fallback, ?_, ?_, ?_, ?_⟩
  · intro mapping outs i mc h
    unfold kwin_op_of_entry
    rw [h]
  · intro monitors i mc h
    unfold mutter_op_of_entry
    rw [h]
  · intro mapping outs mons j mc op hj hop
    exact kwin_build_ops_from_mem mapping outs mons 0 j mc op hj
      (by rw [Nat.zero_add]; exact hop)
  · intro monitors mons j mc op hj hop
    exact mutter_build_ops_from_mem monitors mons 0 j mc op hj
      (by rw [Nat.zero_add]; exact hop)

/-- Witness for C6: with an empty mapping the reverse lookup misses and
display 0 resolves to the output at index 0. -/
theorem target_resolution_policy_witness :
    kwin_resolve_output []
      [{ name := some "Virtual-1", x := 0, y := 0, width := 1920, height := 1080,
         transform := 0, scale := 1, enabled := true, modes := [], current_mode := none,
         done := true }] 0 =
      some { name := some "Virtual-1", x := 0, y := 0, width := 1920, height := 1080,
             transform := 0, scale := 1, enabled := true, modes := [], current_mode := none,
             done := true } := by
  have h := target_resolution_policy.2.1 []
    [{ name := some "Virtual-1", x := 0, y := 0, width := 1920, height := 1080,
       transform := 0, scale := 1, enabled := true, modes := [], current_mode := none,
       done := true }] 0 rfl
  simpa using h

/-- Claim C5 (amended): when no mode matches the requested size, both
backends fall back to the output's current mode; when additionally no
current mode exists, the mutter backend skips the output entirely,
but the kwin backend still builds an operation for it (enable,
position, scale, transform — only the mode request is omitted); in
both backends a skipped entry leaves every other entry's operation in
the submitted list. -/
theorem mode_fallback_policy :
    (∀ (mapping : ConnectorMapping) (outs : List KWinOutput) (i : Nat)
        (mc : MonConfigEntry) (o : KWinOutput),
        kwin_resolve_output mapping outs i = some o →
        kwin_find_mode o.modes mc.width mc.height = none →
        kwin_op_of_entry mapping outs i mc =
          some { out := o, enable := true, mode := o.current_mode,
                 x := mc.x, y := mc.y, scale := o.scale, transform := o.transform }) ∧
    (∀ (monitors : List MutterMonitorInfo) (i : Nat) (mc : MonConfigEntry)
        (t : MutterMonitorInfo),
        mutter_resolve monitors i = some t →
        find_mode_for_resolution t mc.width mc.height = none →
        ((t.current_mode_id = none → mutter_op_of_entry monitors i mc = none) ∧
         (∀ mid, t.current_mode_id = some mid →
            mutter_op_of_entry monitors i mc =
              some { x := mc.x, y := mc.y,
                     scale := if t.current_scale > 0 then t.current_scale else 1,
                     transform := t.current_transform, primary := decide (i = 0),
                     connector := t.connector, mode_id := mid }))) ∧
    (∀ (mapping : ConnectorMapping) (outs : List KWinOutput) (mons : List MonConfigEntry)
        (j : Nat) (mc : MonConfigEntry) (op : KWinOp),
        mons[j]? = some mc → kwin_op_of_entry mapping outs j mc = some op →
        op ∈ kwin_build_ops mapping outs mons) ∧
    (∀ (monitors : List MutterMonitorInfo) (mons : List MonConfigEntry)
        (j : Nat) (mc : MonConfigEntry) (op : MutterLogicalOp),
        mons[j]? = some mc → mutter_op_of_entry monitors j mc = some op →
        op ∈ mutter_build_ops monitors mons) := by
  refine ⟨?_, ?_, ?_, ?_⟩
  · intro mapping outs i mc o hres hmode
    unfold kwin_op_of_entry
    rw [hres]
    show some ({ out := o, enable := true,
                 mode := (match kwin_find_mode o.modes mc.width mc.height with
                          | some m => some m
                          | none => o.current_mode),
                 x := mc.x, y := mc.y, scale := o.scale, transform := o.transform } : KWinOp) = _
    rw [hmode]
  · intro monitors i mc t hres hmode
    constructor
    · intro hcur
      unfold mutter_op_of_entry
      rw [hres]
      show (match (match find_mode_for_resolution t mc.width mc.height with
                   | some mid => some mid
                   | none => t.current_mode_id) with
            | none => (none : Option MutterLogicalOp)
            | some mid =>
              some ({ x := mc.x, y := mc.y,
                      scale := if t.current_scale > 0 then t.current_scale else 1,
                      transform := t.current_transform, primary := decide (i = 0),
                      connector := t.connector, mode_id := mid } : MutterLogicalOp)) = none
      rw [hmode, hcur]
    · intro mid hcur
      unfold mutter_op_of_entry
      rw [hres]
      show (match (match find_mode_for_resolution t mc.width mc.height with
                   | some mid => some mid
                   | none => t.current_mode_id) with
            | none => (none : Option MutterLogicalOp)
            | some mid =>
              some ({ x := mc.x, y := mc.y,
                      scale := if t.current_scale > 0 then t.current_scale else 1,
                      transform := t.current_transform, primary := decide (i = 0),
                      connector := t.connector, mode_id := mid } : MutterLogicalOp)) = _
      rw [hmode, hcur]
  · intro mapping outs mons j mc op hj hop
    exact kwin_build_ops_from_mem mapping outs mons 0 j mc op hj
      (by rw [Nat.zero_add]; exact hop)
  · intro monitors mons j mc op hj hop
    exact mutter_build_ops_from_mem monitors mons 0 j mc op hj
      (by rw [Nat.zero_add]; exact hop)

/-- Witness for C5: an output with no matching mode but a current mode
gets an operation carrying exactly the current mode. -/
theorem mode_fallback_policy_witness :
    kwin_op_of_entry []
      [{ name := some "Virtual-1", x := 0, y := 0, width := 1024, height := 768,
         transform := 0, scale := 1, enabled := true,
         modes := [⟨1024, 768, 60000, false, true⟩],
         current_mode := some ⟨1024, 768, 60000, false, true⟩, done := true }] 0
      ⟨2560, 1440, 0, 0⟩ =
      some { out := { name := some "Virtual-1", x := 0, y := 0, width := 1024, height := 768,
                      transform := 0, scale := 1, enabled := true,
                      modes := [⟨1024, 768, 60000, false, true⟩],
                      current_mode := some ⟨1024, 768, 60000, false, true⟩, done := true },
             enable := true, mode := some ⟨1024, 768, 60000, false, true⟩,
             x := 0, y := 0, scale := 1, transform := 0 } :=
  mode_fallback_policy.1 []
    [{ name := some "Virtual-1", x := 0, y := 0, width := 1024, height := 768,
       transform := 0, scale := 1, enabled := true,
       modes := [⟨1024, 768, 60000, false, true⟩],
       current_mode := some ⟨1024, 768, 60000, false, true⟩, done := true }] 0
    ⟨2560, 1440, 0, 0⟩
    { name := some "Virtual-1", x := 0, y := 0, width := 1024, height := 768,
      transform := 0, scale := 1, enabled := true,
      modes := [⟨1024, 768, 60000, false, true⟩],
      current_mode := some ⟨1024, 768, 60000, false, true⟩, done := true }
    rfl rfl

/-- Counterexample for C5 as claimed: in the kwin backend an output
with no matching mode and no current mode is NOT skipped — an
operation (enable, position, scale, transform, no mode request) is
still built for it. -/
theorem mode_fallback_counterexample :
    kwin_build_ops []
      [{ name := none, x := 0, y := 0, width := 0, height := 0,
         transform := 0, scale := 1, enabled := true, modes := [], current_mode := none,
         done := true }]
      [⟨2560, 1440, 0, 0⟩] =
      [{ out := { name := none, x := 0, y := 0, width := 0, height := 0,
                  transform := 0, scale := 1, enabled := true, modes := [],
                  current_mode := none, done := true },
         enable := true, mode := none, x := 0, y := 0, scale := 1, transform := 0 }] :=
  rfl

/-- Claim C7 (amended): every built operation carries the resolved
output's last observed transform unchanged and takes only position
(and mode) from the layout entry; the scale is carried over unchanged
in kwin, while mutter substitutes 1.0 when the observed scale is not
positive. -/
theorem scale_transform_carryover :
    (∀ (mapping : ConnectorMapping) (outs : List KWinOutput) (i : Nat)
        (mc : MonConfigEntry) (op : KWinOp),
        kwin_op_of_entry mapping outs i mc = some op →
        ∃ o, kwin_resolve_output mapping outs i = some o ∧
          op.out = o ∧ op.enable = true ∧
          op.scale = o.scale ∧ op.transform = o.transform ∧
          op.x = mc.x ∧ op.y = mc.y ∧
          op.mode = (match kwin_find_mode o.modes mc.width mc.height with
                     | some m => some m
                     | none => o.current_mode)) ∧
    (∀ (monitors : List MutterMonitorInfo) (i : Nat) (mc : MonConfigEntry)
        (op : MutterLogicalOp),
        mutter_op_of_entry monitors i mc = some op →
        ∃ t, mutter_resolve monitors i = some t ∧
          op.transform = t.current_transform ∧
          op.scale = (if t.current_scale > 0 then t.current_scale else 1) ∧
          op.x = mc.x ∧ op.y = mc.y ∧ op.connector = t.connector) := by
  constructor
  · intro mapping outs i mc op hop
    cases hres : kwin_resolve_output mapping outs i with
    | none =>
      unfold kwin_op_of_entry at hop
      rw [hres] at hop
      have h2 : (none : Option KWinOp) = some op := hop
      exact Option.noConfusion h2
    | some o =>
      unfold kwin_op_of_entry at hop
      rw [hres] at hop
      have h2 : some ({ out := o, enable := true,
                        mode := (match kwin_find_mode o.modes mc.width mc.height with
                                 | some m => some m
                                 | none => o.current_mode),
                        x := mc.x, y := mc.y, scale := o.scale,
                        transform := o.transform } : KWinOp) = some op := hop
      rw [← Option.some_inj.mp h2]
      exact ⟨o, rfl, rfl, rfl, rfl, rfl, rfl, rfl, rfl⟩
  · intro monitors i mc op hop
    cases hres : mutter_resolve monitors i with
    | none =>
      unfold mutter_op_of_entry at hop
      rw [hres] at hop
      have h2 : (none : Option MutterLogicalOp) = some op := hop
      exact Option.noConfusion h2
    | some t =>
      unfold mutter_op_of_entry at hop
      rw [hres] at hop
      have h2 : (match (match find_mode_for_resolution t mc.width mc.height with
                        | some mid => some mid
                        | none => t.current_mode_id) with
                 | none => (none : Option MutterLogicalOp)
                 | some mid =>
                   some ({ x := mc.x, y := mc.y,
                           scale := if t.current_scale > 0 then t.current_scale else 1,
                           transform := t.current_transform, primary := decide (i = 0),
                           connector := t.connector, mode_id := mid } : MutterLogicalOp)) =
          some op := hop
      cases hsel : (match find_mode_for_resolution t mc.width mc.height with
                    | some mid => some mid
                    | none => t.current_mode_id) with
      | none =>
        rw [hsel] at h2
        exact Option.noConfusion h2
      | some mid =>
        rw [hsel] at h2
        have h3 : some ({ x := mc.x, y := mc.y,
                          scale := if t.current_scale > 0 then t.current_scale else 1,
                          transform := t.current_transform, primary := decide (i = 0),
                          connector := t.connector,
                          mode_id := mid } : MutterLogicalOp) = some op := h2
        rw [← Option.some_inj.mp h3]
        exact ⟨t, rfl, rfl, rfl, rfl, rfl, rfl⟩

/-- Witness for C7: a kwin operation built for a resolved output
carries that output's scale (2) and transform (2) unchanged, and the
entry's position (5, 7). -/
theorem scale_transform_carryover_witness :
    ∃ o, kwin_resolve_output []
      [{ name := some "Virtual-1", x := 0, y := 0, width := 1024, height := 768,
         transform := 2, scale := 2, enabled := true, modes := [], current_mode := none,
         done := true }] 0 = some o ∧
      ({ out := { name := some "Virtual-1", x := 0, y := 0, width := 1024, height := 768,
                  transform := 2, scale := 2, enabled := true, modes := [],
                  current_mode := none, done := true },
         enable := true, mode := none, x := 5, y := 7, scale := 2,
         transform := 2 } : KWinOp).out = o ∧
      ({ out := { name := some "Virtual-1", x := 0, y := 0, width := 1024, height := 768,
                  transform := 2, scale := 2, enabled := true, modes := [],
                  current_mode := none, done := true },
         enable := true, mode := none, x := 5, y := 7, scale := 2,
         transform := 2 } : KWinOp).enable = true ∧
      ({ out := { name := some "Virtual-1", x := 0, y := 0, width := 1024, height := 768,
                  transform := 2, scale := 2, enabled := true, modes := [],
                  current_mode := none, done := true },
         enable := true, mode := none, x := 5, y := 7, scale := 2,
         transform := 2 } : KWinOp).scale = o.scale ∧
      ({ out := { name := some "Virtual-1", x := 0, y := 0, width := 1024, height := 768,
                  transform := 2, scale := 2, enabled := true, modes := [],
                  current_mode := none, done := true },
         enable := true, mode := none, x := 5, y := 7, scale := 2,
         transform := 2 } : KWinOp).transform = o.transform ∧
      ({ out := { name := some "Virtual-1", x := 0, y := 0, width := 1024, height := 768,
                  transform := 2, scale := 2, enabled := true, modes := [],
                  current_mode := none, done := true },
         enable := true, mode := none, x := 5, y := 7, scale := 2,
         transform := 2 } : KWinOp).x = 5 ∧
      ({ out := { name := some "Virtual-1", x := 0, y := 0, width := 1024, height := 768,
                  transform := 2, scale := 2, enabled := true, modes := [],
                  current_mode := none, done := true },
         enable := true, mode := none, x := 5, y := 7, scale := 2,
         transform := 2 } : KWinOp).y = 7 ∧
      ({ out := { name := some "Virtual-1", x := 0, y := 0, width := 1024, height := 768,
                  transform := 2, scale := 2, enabled := true, modes := [],
                  current_mode := none, done := true },
         enable := true, mode := none, x := 5, y := 7, scale := 2,
         transform := 2 } : KWinOp).mode =
        (match kwin_find_mode o.modes 800 600 with
         | some m => some m
         | none => o.current_mode) :=
  scale_transform_carryover.1 []
    [{ name := some "Virtual-1", x := 0, y := 0, width := 1024, height := 768,
       transform := 2, scale := 2, enabled := true, modes := [], current_mode := none,
       done := true }] 0 ⟨800, 600, 5, 7⟩
    { out := { name := some "Virtual-1", x := 0, y := 0, width := 1024, height := 768,
               transform := 2, scale := 2, enabled := true, modes := [],
               current_mode := none, done := true },
      enable := true, mode := none, x := 5, y := 7, scale := 2, transform := 2 }
    rfl

/-- Counterexample for C7 as claimed: a mutter monitor whose last
observed scale is 0 gets an operation with scale 1.0, not the
observed scale — the code guards `current_scale > 0 ? : 1.0`. -/
theorem scale_transform_counterexample :
    (mutter_op_of_entry
      [{ connector := "Virtual-1", modes := [⟨"m1", 1920, 1080, 60, true, false⟩],
         current_x := 0, current_y := 0, current_scale := 0, current_transform := 0,
         is_primary := false, is_enabled := true, current_mode_id := some "m1",
         display_id := 0 }] 0 ⟨1920, 1080, 0, 0⟩).map MutterLogicalOp.scale = some 1 ∧
    ({ connector := "Virtual-1", modes := [⟨"m1", 1920, 1080, 60, true, false⟩],
       current_x := 0, current_y := 0, current_scale := 0, current_transform := 0,
       is_primary := false, is_enabled := true, current_mode_id := some "m1",
       display_id := 0 } : MutterMonitorInfo).current_scale = 0 :=
  ⟨rfl, rfl⟩

/-- Claim C10: in the mutter backend every built logical-monitor
operation is marked primary exactly when it was built from the first
layout entry (index 0), independent of which monitor the backend
currently reports as primary — an apply always reassigns primary to
the layout's first entry. -/
theorem mutter_primary_assignment :
    (∀ (monitors : List MutterMonitorInfo) (i : Nat) (mc : MonConfigEntry)
        (op : MutterLogicalOp),
        mutter_op_of_entry monitors i mc = some op → op.primary = decide (i = 0)) ∧
    (∀ (monitors : List MutterMonitorInfo) (mons : List MonConfigEntry)
        (op : MutterLogicalOp),
        op ∈ mutter_build_ops monitors mons →
        (op.primary = true ↔
          ∃ mc, mons[0]? = some mc ∧ mutter_op_of_entry monitors 0 mc = some op)) := by
  have hentry : ∀ (monitors : List MutterMonitorInfo) (i : Nat) (mc : MonConfigEntry)
      (op : MutterLogicalOp),
      mutter_op_of_entry monitors i mc = some op → op.primary = decide (i = 0) := by
    intro monitors i mc op hop
    cases hres : mutter_resolve monitors i with
    | none =>
      unfold mutter_op_of_entry at hop
      rw [hres] at hop
      have h2 : (none : Option MutterLogicalOp) = some op := hop
      exact Option.noConfusion h2
    | some t =>
      unfold mutter_op_of_entry at hop
      rw [hres] at hop
      have h2 : (match (match find_mode_for_resolution t mc.width mc.height with
                        | some mid => some mid
                        | none => t.current_mode_id) with
                 | none => (none : Option MutterLogicalOp)
                 | some mid =>
                   some ({ x := mc.x, y := mc.y,
                           scale := if t.current_scale > 0 then t.current_scale else 1,
                           transform := t.current_transform, primary := decide (i = 0),
                           connector := t.connector,
                           mode_id := mid } : MutterLogicalOp)) = some op := hop
      cases hsel : (match find_mode_for_resolution t mc.width mc.height with
                    | some mid => some mid
                    | none => t.current_mode_id) with
      | none =>
        rw [hsel] at h2
        exact Option.noConfusion h2
      | some mid =>
        rw [hsel] at h2
        have h3 : some ({ x := mc.x, y := mc.y,
                          scale := if t.current_scale > 0 then t.current_scale else 1,
                          transform := t.current_transform, primary := decide (i = 0),
                          connector := t.connector,
                          mode_id := mid } : MutterLogicalOp) = some op := h2
        rw [← Option.some_inj.mp h3]
  refine ⟨hentry, ?_⟩
  intro monitors mons op hmem
  obtain ⟨j, mc, hj, hop⟩ := mutter_build_ops_from_mem_inv monitors mons 0 op hmem
  rw [Nat.zero_add] at hop
  have hp := hentry monitors j mc op hop
  constructor
  · intro hprim
    rw [hprim] at hp
    have hj0 : j = 0 := of_decide_eq_true hp.symm
    subst hj0
    exact ⟨mc, hj, hop⟩
  · intro hex
    obtain ⟨mc0, hj0, hop0⟩ := hex
    have := hentry monitors 0 mc0 op hop0
    simpa using this

/-- Witness for C10: the operation built from layout entry 0 is marked
primary although the backend reports the monitor as not primary. -/
theorem mutter_primary_assignment_witness :
    (mutter_op_of_entry
      [{ connector := "Virtual-1", modes := [⟨"m1", 1920, 1080, 60, true, false⟩],
         current_x := 0, current_y := 0, current_scale := 1, current_transform := 0,
         is_primary := false, is_enabled := true, current_mode_id := some "m1",
         display_id := 0 }] 0 ⟨1920, 1080, 0, 0⟩ =
      some { x := 0, y := 0, scale := 1, transform := 0, primary := true,
             connector := "Virtual-1", mode_id := "m1" }) ∧
    ({ x := 0, y := 0, scale := 1, transform := 0, primary := true,
       connector := "Virtual-1", mode_id := "m1" } : MutterLogicalOp).primary = decide (0 = 0) :=
  ⟨by decide,
   mutter_primary_assignment.1
     [{ connector := "Virtual-1", modes := [⟨"m1", 1920, 1080, 60, true, false⟩],
        current_x := 0, current_y := 0, current_scale := 1, current_transform := 0,
        is_primary := false, is_enabled := true, current_mode_id := some "m1",
        display_id := 0 }] 0 ⟨1920, 1080, 0, 0⟩
     { x := 0, y := 0, scale := 1, transform := 0, primary := true,
       connector := "Virtual-1", mode_id := "m1" }
     (by decide)⟩
